import Mathlib

/-!
Verification of the truthOS frontend slice.

The development shallowly embeds the data model and operations of the
frontend of the repository (src/frontend/src/lib/api.ts, src/frontend/src/app/ingest/page.tsx,
and the contacts page) and, where a claim depends on the Python backend that
is not part of this slice, models the missing behaviour from the spec, each
such definition carrying a doc comment starting with "Modelled from the spec".
-/

namespace TruthOS

/-- Embeds the TypeScript union `MeetingType = "sales" | "coaching"` from api.ts. -/
inductive MeetingType
  | sales
  | coaching
deriving DecidableEq

/-- String rendering of a MeetingType, as serialized in requests and option values. -/
def MeetingType.toStr : MeetingType → String
  | .sales => "sales"
  | .coaching => "coaching"

/-- Embeds the `IngestBody` interface of api.ts. -/
structure IngestBody where
  meetingId : String
  contactId : String
  type : MeetingType
  occurredAt : String
  transcript : String
deriving DecidableEq

/-- Embeds the `MeetingRecord` interface of api.ts. -/
structure MeetingRecord where
  meetingId : String
  contactId : String
  type : MeetingType
  occurredAt : String
  transcript : String
  transcriptHash : String
  createdAt : String
deriving DecidableEq

/-- Embeds the `AnalysisDerived` interface of api.ts. -/
structure AnalysisDerived where
  topics : List String
  objections : List String
  commitments : List String
  sentiment : String
  outcome : String
  summary : String
deriving DecidableEq

/-- Embeds the `AnalysisRecord` interface of api.ts. -/
structure AnalysisRecord where
  meetingId : String
  contactId : String
  transcriptHash : String
  schemaVersion : String
  promptVersion : String
  model : String
  analyzedAt : String
  derived : AnalysisDerived
deriving DecidableEq

/-- Embeds the `ContactMeetingsResponse` interface of api.ts. -/
structure ContactMeetingsResponse where
  contactId : String
  meetings : List MeetingRecord
  analyses : List AnalysisRecord
deriving DecidableEq

/-- Embeds the anonymous `truth_ref` object of the analyzeMeeting return type in api.ts. -/
structure TruthRef where
  meetingId : String
  contactId : String
  transcriptHash : String
deriving DecidableEq

/-- Embeds the declared return type of `analyzeMeeting` in api.ts. -/
structure AnalyzeResponse where
  truth_ref : TruthRef
  analysis : AnalysisRecord
  note : String
deriving DecidableEq

/-- Embeds the declared return type of `ingestMeeting` in api.ts; the source
declares its `derived` field with type `null`, embedded here as `Unit`. -/
structure IngestResponse where
  truth : MeetingRecord
  derived : Unit
  note : String
deriving DecidableEq

/-! Field-name/field-type views of the TypeScript interfaces. Each list mirrors
the fields of one interface of api.ts in declaration order, so that claims about
the shape of request and response payloads can be stated and decided. -/

/-- Tags for the field types occurring in the api.ts interfaces. -/
inductive FieldTy
  | str
  | strList
  | meetingTypeTy
  | nullTy
  | meetingTy
  | meetingListTy
  | analysisListTy
  | truthRefTy
  | analysisTy
  | derivedTy
deriving DecidableEq

/-- Fields of `IngestBody` (api.ts), in declaration order. -/
def ingestBodyFields : List (String × FieldTy) :=
  [("meetingId", .str), ("contactId", .str), ("type", .meetingTypeTy),
   ("occurredAt", .str), ("transcript", .str)]

/-- Fields of `MeetingRecord` (api.ts), in declaration order. -/
def meetingRecordFields : List (String × FieldTy) :=
  [("meetingId", .str), ("contactId", .str), ("type", .meetingTypeTy),
   ("occurredAt", .str), ("transcript", .str), ("transcriptHash", .str),
   ("createdAt", .str)]

/-- Fields of `AnalysisDerived` (api.ts), in declaration order. -/
def analysisDerivedFields : List (String × FieldTy) :=
  [("topics", .strList), ("objections", .strList), ("commitments", .strList),
   ("sentiment", .str), ("outcome", .str), ("summary", .str)]

/-- Fields of `AnalysisRecord` (api.ts), in declaration order. -/
def analysisRecordFields : List (String × FieldTy) :=
  [("meetingId", .str), ("contactId", .str), ("transcriptHash", .str),
   ("schemaVersion", .str), ("promptVersion", .str), ("model", .str),
   ("analyzedAt", .str), ("derived", .derivedTy)]

/-- Fields of `ContactMeetingsResponse` (api.ts), in declaration order. -/
def contactMeetingsResponseFields : List (String × FieldTy) :=
  [("contactId", .str), ("meetings", .meetingListTy), ("analyses", .analysisListTy)]

/-- Fields of the `truth_ref` object in the analyzeMeeting return type (api.ts). -/
def truthRefFields : List (String × FieldTy) :=
  [("meetingId", .str), ("contactId", .str), ("transcriptHash", .str)]

/-- Fields of the declared analyzeMeeting return type (api.ts), in declaration order. -/
def analyzeResponseFields : List (String × FieldTy) :=
  [("truth_ref", .truthRefTy), ("analysis", .analysisTy), ("note", .str)]

/-- Fields of the declared ingestMeeting return type (api.ts), in declaration order. -/
def ingestResponseFields : List (String × FieldTy) :=
  [("truth", .meetingTy), ("derived", .nullTy), ("note", .str)]

/-! The HTTP requests issued by the api.ts client functions. -/

/-- Embeds the `DEFAULT_HEADERS` constant of api.ts. -/
def DEFAULT_HEADERS : List (String × String) :=
  [("Content-Type", "application/json"),
   ("x-user-role", "operator"),
   ("x-user-id", "demo-user")]

/-- HTTP methods used by the client (fetch defaults to GET when no method is given). -/
inductive HttpMethod
  | get
  | post
deriving DecidableEq

/-- Hexadecimal digit character for a value below 16, upper case as produced
by the JavaScript `encodeURIComponent` builtin. -/
def hexDigitChar (n : Nat) : Char :=
  if n < 10 then Char.ofNat (48 + n) else Char.ofNat (55 + n)

/-- Bytes left unescaped by the JavaScript `encodeURIComponent` builtin:
ASCII letters, digits, and - _ . ! ~ * apostrophe ( ). -/
def isUnreservedByte (b : Nat) : Bool :=
  (65 ≤ b && b ≤ 90) || (97 ≤ b && b ≤ 122) || (48 ≤ b && b ≤ 57) ||
  b == 45 || b == 95 || b == 46 || b == 33 || b == 126 || b == 42 ||
  b == 39 || b == 40 || b == 41

/-- Percent-encoding of one UTF-8 byte as done by `encodeURIComponent`. -/
def encodeByte (b : Nat) : String :=
  if isUnreservedByte b then String.singleton (Char.ofNat b)
  else "%" ++ String.singleton (hexDigitChar (b / 16)) ++ String.singleton (hexDigitChar (b % 16))

/-- UTF-8 byte sequence of a character, as natural numbers. -/
def utf8Bytes (c : Char) : List Nat :=
  let n := c.toNat
  if n < 128 then [n]
  else if n < 2048 then [192 + n / 64, 128 + n % 64]
  else if n < 65536 then [224 + n / 4096, 128 + (n / 64) % 64, 128 + n % 64]
  else [240 + n / 262144, 128 + (n / 4096) % 64, 128 + (n / 64) % 64, 128 + n % 64]

/-- Model of the JavaScript `encodeURIComponent` builtin used by api.ts:
percent-encodes every UTF-8 byte outside the unreserved set. -/
def encodeURIComponent (s : String) : String :=
  String.join (((s.toList.map utf8Bytes).flatten).map encodeByte)

/-- An HTTP request as issued by the api.ts client: method, path below the API
base URL, and headers. -/
structure HttpRequest where
  method : HttpMethod
  path : String
  headers : List (String × String)
deriving DecidableEq

/-- The request issued by `ingestMeeting` (api.ts): POST /api/meetings with the
default headers. -/
def ingestRequest (_ : IngestBody) : HttpRequest :=
  { method := .post, path := "/api/meetings", headers := DEFAULT_HEADERS }

/-- The JSON body sent by `ingestMeeting` (api.ts): `JSON.stringify` of the
IngestBody, here as the ordered list of key/value pairs. -/
def ingestRequestBody (b : IngestBody) : List (String × String) :=
  [("meetingId", b.meetingId), ("contactId", b.contactId),
   ("type", b.type.toStr), ("occurredAt", b.occurredAt),
   ("transcript", b.transcript)]

/-- The request issued by `analyzeMeeting` (api.ts): POST
/api/meetings/(encoded meetingId)/analyze with the default headers. -/
def analyzeRequest (meetingId : String) : HttpRequest :=
  { method := .post,
    path := "/api/meetings/" ++ encodeURIComponent meetingId ++ "/analyze",
    headers := DEFAULT_HEADERS }

/-- The request issued by `fetchContactMeetings` (api.ts): GET
/api/contacts/(encoded contactId)/meetings with the default headers. -/
def contactMeetingsRequest (contactId : String) : HttpRequest :=
  { method := .get,
    path := "/api/contacts/" ++ encodeURIComponent contactId ++ "/meetings",
    headers := DEFAULT_HEADERS }

/-! The response-handling path shared by all three api.ts client functions. -/

/-- The JSON value found in the `detail` field of an error body: either a JSON
string, or any other JSON value carried as its `JSON.stringify` rendering,
which is all the client ever extracts from it. -/
inductive DetailVal
  | str (s : String)
  | other (stringified : String)
deriving DecidableEq

/-- An error body parsed from a non-ok response. -/
structure ErrorBody where
  detail : DetailVal
deriving DecidableEq

/-- An HTTP response as observed by the api.ts client: `ok` flag, status text,
and the error body when the body parses as JSON (`none` models a `r.json()`
rejection, handled by the `.catch` in api.ts). -/
structure HttpResponse where
  ok : Bool
  statusText : String
  jsonBody : Option ErrorBody
deriving DecidableEq

/-- The error message each api.ts function throws on a non-ok response:
`err.detail` when it is a string, `JSON.stringify(err.detail)` otherwise, and
`r.statusText` when the body does not parse (the `.catch` branch). -/
def errorDetailString (r : HttpResponse) : String :=
  match r.jsonBody with
  | some body =>
    match body.detail with
    | .str s => s
    | .other j => j
  | none => r.statusText

/-- The outcome of one api.ts client call: the parsed success value, or the
thrown `Error` with its message. -/
inductive ApiResult (α : Type)
  | ok (value : α)
  | err (message : String)

/-- The shared response handling of the three api.ts functions: a non-ok
response throws with the extracted detail, an ok response resolves to the
parsed body. -/
def handleResponse {α : Type} (r : HttpResponse) (parsed : α) : ApiResult α :=
  if r.ok then .ok parsed else .err (errorDetailString r)

/-- Outcome of `ingestMeeting` (api.ts) given the HTTP response and, when ok,
the parsed body. -/
def ingestMeetingResult (r : HttpResponse) (parsed : IngestResponse) : ApiResult IngestResponse :=
  handleResponse r parsed

/-- Outcome of `analyzeMeeting` (api.ts) given the HTTP response and, when ok,
the parsed body. -/
def analyzeMeetingResult (r : HttpResponse) (parsed : AnalyzeResponse) : ApiResult AnalyzeResponse :=
  handleResponse r parsed

/-- Outcome of `fetchContactMeetings` (api.ts) given the HTTP response and,
when ok, the parsed body. -/
def fetchContactMeetingsResult (r : HttpResponse) (parsed : ContactMeetingsResponse) :
    ApiResult ContactMeetingsResponse :=
  handleResponse r parsed

/-! The contacts page (rendered after part3-reasoning.md in the repository):
pairing of meetings with analyses and the analyze action. -/

/-- The analysis the ContactsPage passes to a MeetingRow: the first element of
`data.analyses` whose meetingId equals that of the meeting, via `Array.find`. -/
def pairAnalysis (m : MeetingRecord) (analyses : List AnalysisRecord) : Option AnalysisRecord :=
  analyses.find? (fun a => a.meetingId == m.meetingId)

/-- The MeetingRow guard `isAnalysisForThis`: the optional analysis prop exists
and its meetingId equals that of the meeting (`analysis?.meetingId === meeting.meetingId`). -/
def isAnalysisForThis (m : MeetingRecord) (analysis : Option AnalysisRecord) : Bool :=
  match analysis with
  | some a => a.meetingId == m.meetingId
  | none => false

/-- Whether a MeetingRow renders the "Run LLM analysis" button: exactly when
`isAnalysisForThis` is false. -/
def showAnalyzeButton (m : MeetingRecord) (analysis : Option AnalysisRecord) : Bool :=
  !(isAnalysisForThis m analysis)

/-- Whether the row for meeting `m`, rendered by ContactsPage against the
fetched `analyses`, offers the "Run LLM analysis" action. -/
def rowOffersAnalyze (m : MeetingRecord) (analyses : List AnalysisRecord) : Bool :=
  showAnalyzeButton m (pairAnalysis m analyses)

/-- Outcome of the awaited `analyzeMeeting` call inside MeetingRow.handleAnalyze. -/
inductive AnalyzeOutcome
  | succeeded (resp : AnalyzeResponse)
  | threw (message : String)

/-- Observable effects of MeetingRow.handleAnalyze: whether `onAnalyzed`
(wired to the `loadContact` re-fetch of the page) ran, and the final analyzing flag. -/
structure AnalyzeEffects where
  refetched : Bool
  analyzing : Bool
deriving DecidableEq

/-- MeetingRow.handleAnalyze: on success it calls `onAnalyzed` (the contact
re-fetch); on a thrown error it does not; the `finally` clears `analyzing`
either way. -/
def handleAnalyze : AnalyzeOutcome → AnalyzeEffects
  | .succeeded _ => { refetched := true, analyzing := false }
  | .threw _ => { refetched := false, analyzing := false }

/-! The ingest form (src/frontend/src/app/ingest/page.tsx). -/

/-- The option values offered by the meeting-type select of the ingest form. -/
def ingestTypeOptions : List String :=
  ["sales", "coaching"]

/-- Status of the ingest form. -/
inductive FormStatus
  | idle
  | loading
  | success
  | error
deriving DecidableEq

/-- State held by the useState hooks of IngestPage. -/
structure IngestFormState where
  meetingId : String
  contactId : String
  type : MeetingType
  occurredAt : String
  transcript : String
  status : FormStatus
  message : String
deriving DecidableEq

/-- Outcome of the awaited `ingestMeeting` call inside IngestPage.handleSubmit. -/
inductive SubmitOutcome
  | succeeded
  | threw (message : String)

/-- IngestPage.handleSubmit: after the awaited call, on success it sets the
success status and message and clears meetingId, contactId and transcript; on
a thrown error it sets the error status and message and touches no input field. -/
def handleSubmit (s : IngestFormState) : SubmitOutcome → IngestFormState
  | .succeeded =>
    { s with
      status := .success,
      message := "Meeting stored as immutable truth.",
      meetingId := "",
      contactId := "",
      transcript := "" }
  | .threw msg =>
    { s with status := .error, message := msg }

/-! Backend behaviour modelled from the spec. The Python backend (api/ package)
is not part of this slice of the repository; only its contract appears in the
spec, the README and the frontend declarations. -/

/-- The three HTTP endpoints of the backend. -/
inductive Endpoint
  | ingest
  | analyze
  | listContact
deriving DecidableEq

/-- Modelled from the spec: which endpoints require the operator role — the
role checks of the backend are not under src/; the spec states operator is required
for write/analyze while read is open. -/
def requiresOperator : Endpoint → Bool
  | .ingest => true
  | .analyze => true
  | .listContact => false

/-- Modelled from the spec: the backend role gate on the caller-supplied
`x-user-role` claim — an endpoint either is open or demands the operator role. -/
def roleAllowed (e : Endpoint) (role : String) : Bool :=
  !requiresOperator e || role == "operator"

/-- The closed sentiment set of the spec: positive, neutral, negative. -/
def allowedSentiments : List String :=
  ["positive", "neutral", "negative"]

/-- The fixed outcome set of the spec: closed_won, closed_lost, follow_up,
no_decision. -/
def allowedOutcomes : List String :=
  ["closed_won", "closed_lost", "follow_up", "no_decision"]

/-- Modelled from the spec: the Pydantic validation the AnalysisAgent applies to of the LLM
output — absent from src/ — which rejects any payload whose sentiment or
outcome lies outside the enumerated sets, and never coerces values. -/
def validatePayload (p : AnalysisDerived) : Option AnalysisDerived :=
  if p.sentiment ∈ allowedSentiments ∧ p.outcome ∈ allowedOutcomes then some p else none

/-- Modelled from the spec: the backend renders the detail of each surfaced failure
with the error kind and a human-readable message — the backend error
construction is not under src/. -/
def errDetail (kind message : String) : String :=
  kind ++ ": " ++ message

/-! Concrete sample values, used by the witness theorems. -/

/-- Sample derived payload with in-range enum values. -/
def sampleDerived : AnalysisDerived :=
  { topics := ["pricing"], objections := [], commitments := [],
    sentiment := "positive", outcome := "follow_up", summary := "Good call." }

/-- Sample meeting record for contact c1. -/
def sampleMeeting : MeetingRecord :=
  { meetingId := "m1", contactId := "c1", type := .sales,
    occurredAt := "2024-01-01T10:00:00Z", transcript := "Hello, thanks for joining.",
    transcriptHash := "hash1", createdAt := "2024-01-01T11:00:00Z" }

/-- Sample analysis record for meeting m1. -/
def sampleAnalysisM1 : AnalysisRecord :=
  { meetingId := "m1", contactId := "c1", transcriptHash := "hash1",
    schemaVersion := "v1", promptVersion := "p1", model := "llama-3.3-70b-versatile",
    analyzedAt := "2024-01-02T09:00:00Z", derived := sampleDerived }

/-- Sample analysis record for a different meeting m2. -/
def sampleAnalysisM2 : AnalysisRecord :=
  { sampleAnalysisM1 with meetingId := "m2" }

/-- Sample successful ingest response. -/
def sampleIngestResponse : IngestResponse :=
  { truth := sampleMeeting, derived := (), note := "analysis is derived separately" }

/-- Sample ok HTTP response. -/
def respOk : HttpResponse :=
  { ok := true, statusText := "OK", jsonBody := none }

/-- Sample non-ok HTTP response whose JSON body carries a detail string with
kind and message. -/
def respErr : HttpResponse :=
  { ok := false, statusText := "Not Found",
    jsonBody := some { detail := .str (errDetail "NotFound" "meeting not found") } }

/-! Claim theorems. -/

/-- C1: the contact read path returns meetings and analyses as two separate,
unmerged sequences in a response of shape (contactId, meetings, analyses), and
the presentation layer pairs each Meeting with its matching analysis by
meetingId: a paired analysis always has the meetingId of the meeting, and no
analysis is paired exactly when no fetched analysis matches that meetingId. -/
theorem contact_read_unmerged_and_paired :
    contactMeetingsResponseFields.map Prod.fst = ["contactId", "meetings", "analyses"]
    ∧ (∀ (m : MeetingRecord) (analyses : List AnalysisRecord) (a : AnalysisRecord),
        pairAnalysis m analyses = some a → a.meetingId = m.meetingId)
    ∧ (∀ (m : MeetingRecord) (analyses : List AnalysisRecord),
        pairAnalysis m analyses = none ↔ ∀ a ∈ analyses, a.meetingId ≠ m.meetingId) := by
  refine ⟨by decide, ?_, ?_⟩
  · intro m analyses a h
    unfold pairAnalysis at h
    have hp := List.find?_some h
    exact eq_of_beq hp
  · intro m analyses
    simp [pairAnalysis, List.find?_eq_none]

/-- Witness for C1: in a fetch where the analyses sequence holds the sample
analysis of meeting m1, the analysis paired with the sample meeting has its
meetingId. -/
theorem contact_read_unmerged_and_paired_witness :
    sampleAnalysisM1.meetingId = sampleMeeting.meetingId :=
  contact_read_unmerged_and_paired.2.1 sampleMeeting [sampleAnalysisM1] sampleAnalysisM1
    (by decide)

/-- C2, counterexample: the declared analyzeMeeting response type does not have
the two-field shape (truth_ref, analysis) the claim states — it carries a third
field, note. -/
theorem analyze_response_claimed_shape_false :
    ¬ analyzeResponseFields.map Prod.fst = ["truth_ref", "analysis"] := by
  decide

/-- C2, amended: every successful analyze call resolves to the declared shape
(truth_ref: (meetingId, contactId, transcriptHash), analysis: MeetingAnalysis,
note), and the operation is issued as a POST to meetings/(meetingId)/analyze,
restricted — per the spec-modelled role gate — to the operator role. -/
theorem analyze_call_shape_and_gate :
    analyzeResponseFields.map Prod.fst = ["truth_ref", "analysis", "note"]
    ∧ truthRefFields.map Prod.fst = ["meetingId", "contactId", "transcriptHash"]
    ∧ analyzeResponseFields.lookup "analysis" = some FieldTy.analysisTy
    ∧ (∀ meetingId, (analyzeRequest meetingId).method = HttpMethod.post
        ∧ (analyzeRequest meetingId).path
            = "/api/meetings/" ++ encodeURIComponent meetingId ++ "/analyze")
    ∧ (∀ role, roleAllowed Endpoint.analyze role = true ↔ role = "operator") := by
  refine ⟨by decide, by decide, by decide, fun meetingId => ⟨rfl, rfl⟩, ?_⟩
  intro role
  simp [roleAllowed, requiresOperator]

/-- Witness for C2: the operator role passes the analyze gate. -/
theorem analyze_call_shape_and_gate_witness :
    roleAllowed Endpoint.analyze "operator" = true :=
  (analyze_call_shape_and_gate.2.2.2.2 "operator").mpr rfl

/-- C3: every ingest request is a POST to the meetings endpoint whose JSON body
has exactly the five fields meetingId, contactId, type, occurredAt, transcript,
and a successful ingest resolves to the parsed response, whose truth field is
the persisted Meeting, a record type carrying transcriptHash. -/
theorem ingest_request_exact_fields :
    ingestBodyFields.map Prod.fst = ["meetingId", "contactId", "type", "occurredAt", "transcript"]
    ∧ (∀ b : IngestBody, (ingestRequestBody b).map Prod.fst
        = ["meetingId", "contactId", "type", "occurredAt", "transcript"])
    ∧ (∀ b : IngestBody, (ingestRequest b).method = HttpMethod.post
        ∧ (ingestRequest b).path = "/api/meetings")
    ∧ ingestResponseFields.lookup "truth" = some FieldTy.meetingTy
    ∧ ("transcriptHash", FieldTy.str) ∈ meetingRecordFields
    ∧ (∀ (r : HttpResponse) (parsed : IngestResponse),
        r.ok = true → ingestMeetingResult r parsed = ApiResult.ok parsed) := by
  refine ⟨by decide, fun b => rfl, fun b => ⟨rfl, rfl⟩, by decide, by decide, ?_⟩
  intro r parsed h
  simp [ingestMeetingResult, handleResponse, h]

/-- Witness for C3: an ok response makes the ingest call resolve with the
parsed body. -/
theorem ingest_request_exact_fields_witness :
    ingestMeetingResult respOk sampleIngestResponse = ApiResult.ok sampleIngestResponse :=
  ingest_request_exact_fields.2.2.2.2.2 respOk sampleIngestResponse rfl

/-- C4: every derived payload that passes the spec-modelled AnalysisAgent
validation has its sentiment in the positive/neutral/negative set and its
outcome in the fixed outcome set; nothing outside those sets is ever accepted
for persistence or return. -/
theorem analysis_enum_containment :
    ∀ p q : AnalysisDerived, validatePayload p = some q →
      q.sentiment ∈ allowedSentiments ∧ q.outcome ∈ allowedOutcomes := by
  intro p q h
  unfold validatePayload at h
  split at h
  · rename_i hc
    injection h with h
    subst h
    exact hc
  · simp at h

/-- Witness for C4: the sample derived payload passes validation, and its
sentiment and outcome lie in the allowed sets. -/
theorem analysis_enum_containment_witness :
    sampleDerived.sentiment ∈ allowedSentiments ∧ sampleDerived.outcome ∈ allowedOutcomes :=
  analysis_enum_containment sampleDerived sampleDerived (by decide)

/-- C5: all three contracts are gated on the caller-supplied role claim sent in
the x-user-role header of every request: per the spec-modelled gate, the
operator role is required for ingest and analyze, while the contact read is
open to any role. -/
theorem role_gating :
    (∀ role, roleAllowed Endpoint.ingest role = true ↔ role = "operator")
    ∧ (∀ role, roleAllowed Endpoint.analyze role = true ↔ role = "operator")
    ∧ (∀ role, roleAllowed Endpoint.listContact role = true)
    ∧ ("x-user-role", "operator") ∈ DEFAULT_HEADERS
    ∧ (∀ b : IngestBody, (ingestRequest b).headers = DEFAULT_HEADERS)
    ∧ (∀ meetingId, (analyzeRequest meetingId).headers = DEFAULT_HEADERS)
    ∧ (∀ contactId, (contactMeetingsRequest contactId).headers = DEFAULT_HEADERS) := by
  refine ⟨?_, ?_, ?_, by decide, fun b => rfl, fun meetingId => rfl, fun contactId => rfl⟩
  · intro role
    simp [roleAllowed, requiresOperator]
  · intro role
    simp [roleAllowed, requiresOperator]
  · intro role
    simp [roleAllowed, requiresOperator]

/-- Witness for C5: the operator role passes the ingest gate and a basic role
passes the open read gate. -/
theorem role_gating_witness :
    roleAllowed Endpoint.ingest "operator" = true
    ∧ roleAllowed Endpoint.listContact "basic" = true :=
  ⟨(role_gating.1 "operator").mpr rfl, role_gating.2.2.1 "basic"⟩

/-- C6: every identifier field of the interface records is a string, and
transcriptHash together with the versioning fields schemaVersion,
promptVersion and model is present in the analysis records carried by
responses, as is transcriptHash in meeting records and truth references. -/
theorem identifiers_and_versioning_present :
    meetingRecordFields.lookup "meetingId" = some FieldTy.str
    ∧ meetingRecordFields.lookup "contactId" = some FieldTy.str
    ∧ meetingRecordFields.lookup "transcriptHash" = some FieldTy.str
    ∧ analysisRecordFields.lookup "meetingId" = some FieldTy.str
    ∧ analysisRecordFields.lookup "contactId" = some FieldTy.str
    ∧ analysisRecordFields.lookup "transcriptHash" = some FieldTy.str
    ∧ analysisRecordFields.lookup "schemaVersion" = some FieldTy.str
    ∧ analysisRecordFields.lookup "promptVersion" = some FieldTy.str
    ∧ analysisRecordFields.lookup "model" = some FieldTy.str
    ∧ contactMeetingsResponseFields.lookup "contactId" = some FieldTy.str
    ∧ truthRefFields.lookup "transcriptHash" = some FieldTy.str
    ∧ analyzeResponseFields.lookup "truth_ref" = some FieldTy.truthRefTy
    ∧ ingestResponseFields.lookup "truth" = some FieldTy.meetingTy := by
  decide

/-- C7: a Meeting at the interface has exactly the seven fields meetingId,
contactId, type, occurredAt, transcript, transcriptHash, createdAt; the type
enum has exactly the two values sales and coaching; and the ingest form offers
exactly those two option values. -/
theorem meeting_shape_and_type_enum :
    meetingRecordFields.map Prod.fst
      = ["meetingId", "contactId", "type", "occurredAt", "transcript",
         "transcriptHash", "createdAt"]
    ∧ (∀ t : MeetingType, t = MeetingType.sales ∨ t = MeetingType.coaching)
    ∧ ingestTypeOptions = [MeetingType.sales.toStr, MeetingType.coaching.toStr] := by
  refine ⟨by decide, ?_, rfl⟩
  intro t
  cases t
  · exact Or.inl rfl
  · exact Or.inr rfl

/-- C8: every non-ok response to an ingest, analyze or contact-listing call
surfaces as an error carrying the extracted server detail — which, for the
spec-modelled backend, renders the error kind and human-readable message — and
the call never resolves to a success value. -/
theorem error_surfacing :
    (∀ (r : HttpResponse) (b : IngestResponse),
        r.ok = false → ingestMeetingResult r b = ApiResult.err (errorDetailString r))
    ∧ (∀ (r : HttpResponse) (b : AnalyzeResponse),
        r.ok = false → analyzeMeetingResult r b = ApiResult.err (errorDetailString r))
    ∧ (∀ (r : HttpResponse) (b : ContactMeetingsResponse),
        r.ok = false → fetchContactMeetingsResult r b = ApiResult.err (errorDetailString r))
    ∧ (∀ okFlag statusText kind message,
        errorDetailString
          { ok := okFlag, statusText := statusText,
            jsonBody := some { detail := DetailVal.str (errDetail kind message) } }
          = errDetail kind message) := by
  refine ⟨?_, ?_, ?_, fun okFlag statusText kind message => rfl⟩
  all_goals
    intro r b h
    simp [ingestMeetingResult, analyzeMeetingResult, fetchContactMeetingsResult,
      handleResponse, h]

/-- Witness for C8: the sample non-ok response makes the ingest call surface
the server-provided detail as an error. -/
theorem error_surfacing_witness :
    ingestMeetingResult respErr sampleIngestResponse
      = ApiResult.err (errorDetailString respErr) :=
  error_surfacing.1 respErr sampleIngestResponse rfl

/-- C9: a rendered meeting row offers the "Run LLM analysis" action exactly
when no fetched analysis has the meetingId of that meeting, and after a
successful analyze the contact data is re-fetched while a failed one triggers
no re-fetch. -/
theorem analyze_offer_iff_unanalyzed :
    (∀ (m : MeetingRecord) (analyses : List AnalysisRecord),
        rowOffersAnalyze m analyses = true ↔ ∀ a ∈ analyses, a.meetingId ≠ m.meetingId)
    ∧ (∀ resp, (handleAnalyze (AnalyzeOutcome.succeeded resp)).refetched = true)
    ∧ (∀ message, (handleAnalyze (AnalyzeOutcome.threw message)).refetched = false) := by
  refine ⟨?_, fun resp => rfl, fun message => rfl⟩
  intro m analyses
  unfold rowOffersAnalyze showAnalyzeButton isAnalysisForThis pairAnalysis
  cases hfind : analyses.find? (fun a => a.meetingId == m.meetingId) with
  | none =>
    constructor
    · intro _ a ha
      have hmem := List.find?_eq_none.mp hfind a ha
      simpa using hmem
    · intro _
      rfl
  | some a =>
    have hp := List.find?_some hfind
    constructor
    · intro hfalse
      simp [hp] at hfalse
    · intro hall
      exact absurd (eq_of_beq hp) (hall a (List.mem_of_find?_eq_some hfind))

/-- Witness for C9: a row whose fetched analyses hold only the analysis of a
different meeting offers the analyze action. -/
theorem analyze_offer_iff_unanalyzed_witness :
    rowOffersAnalyze sampleMeeting [sampleAnalysisM2] = true :=
  (analyze_offer_iff_unanalyzed.1 sampleMeeting [sampleAnalysisM2]).mpr (by decide)

/-- C10: a successful ingest submission clears the meetingId, contactId and
transcript inputs while leaving the type and occurredAt inputs unchanged, and
a failed submission clears no input field. -/
theorem ingest_form_clearing :
    (∀ s : IngestFormState,
        (handleSubmit s SubmitOutcome.succeeded).meetingId = ""
        ∧ (handleSubmit s SubmitOutcome.succeeded).contactId = ""
        ∧ (handleSubmit s SubmitOutcome.succeeded).transcript = ""
        ∧ (handleSubmit s SubmitOutcome.succeeded).type = s.type
        ∧ (handleSubmit s SubmitOutcome.succeeded).occurredAt = s.occurredAt)
    ∧ (∀ (s : IngestFormState) (message : String),
        (handleSubmit s (SubmitOutcome.threw message)).meetingId = s.meetingId
        ∧ (handleSubmit s (SubmitOutcome.threw message)).contactId = s.contactId
        ∧ (handleSubmit s (SubmitOutcome.threw message)).transcript = s.transcript
        ∧ (handleSubmit s (SubmitOutcome.threw message)).type = s.type
        ∧ (handleSubmit s (SubmitOutcome.threw message)).occurredAt = s.occurredAt) :=
  ⟨fun _ => ⟨rfl, rfl, rfl, rfl, rfl⟩, fun _ _ => ⟨rfl, rfl, rfl, rfl, rfl⟩⟩

end TruthOS
